import Mathlib

/-!
Verification of the wallet-lifecycle and transfer-orchestration layer of the
IA-shop-agent repository.  The TypeScript actions and providers are shallowly
embedded: strings are lists of characters, the host runtime's key-value cache
is an association list, and every network call (balance read, broadcast,
confirmation wait) is an oracle supplied in the flow's environment as an
`Except` value, matching the promise-that-may-reject semantics of the source.
-/

namespace AIShop

/-- Strings of the embedded program, as lists of characters. -/
abbrev Text := List Char

/-- Conversion from a Lean string literal to the embedded text type. -/
def lit (s : String) : Text := s.toList

/-- Decimal digit test, as in the regex class `\d`. -/
def isDigitCh (c : Char) : Bool := c.isDigit

/-- Hexadecimal digit test, as in the regex class `[a-fA-F0-9]`. -/
def isHexDigitCh (c : Char) : Bool :=
  c.isDigit || ('a' ≤ c && c ≤ 'f') || ('A' ≤ c && c ≤ 'F')

/-- Whitespace test, as in the regex class `\s`. -/
def isSpaceCh (c : Char) : Bool := c.isWhitespace

/-- Lowercasing of a text, as in JavaScript `toLowerCase` on ASCII input. -/
def toLowerText (t : Text) : Text := t.map Char.toLower

/-- The decimal digit character for `n < 10`. -/
def digitChar (n : Nat) : Char := Char.ofNat (48 + n)

/-- Fuel-driven base-10 digit rendering (the fuel is structural so the
definition evaluates by reduction; `natChars` supplies enough fuel). -/
def natCharsAux : Nat → Nat → Text
  | 0, _ => []
  | fuel + 1, n =>
    if n < 10 then [digitChar n]
    else natCharsAux fuel (n / 10) ++ [digitChar (n % 10)]

/-- Base-10 rendering of a natural number, as produced by `JSON.stringify`
on a number and by JavaScript number-to-string conversion. -/
def natChars (n : Nat) : Text := natCharsAux (n + 1) n

/-- Numeric value of a digit string, most significant digit first. -/
def natOfDigits (s : Text) : Nat :=
  s.foldl (fun acc c => acc * 10 + (c.toNat - 48)) 0

/-- Joining of report lines with newlines, as in `[...].join("\n")`. -/
def joinLines : List Text → Text
  | [] => []
  | [l] => l
  | l :: r => l ++ '\n' :: joinLines r

/-! ### Regex-based intent extraction

`extractEthereumWalletAddress` embeds `text.match(/0x[a-fA-F0-9]{40}/g)`
followed by taking `matches[0]`: the leftmost position at which `0x` is
followed by forty hexadecimal characters wins, and the match is the 42
characters starting there.  The regex is substring-based: it has no word
boundaries, so a longer hexadecimal run still yields its first forty
characters. -/

/-- Does an address match begin at the head of `s`? -/
def addrHere (s : Text) : Bool :=
  match s with
  | '0' :: 'x' :: r => ((r.take 40).length == 40) && (r.take 40).all isHexDigitCh
  | _ => false

/-- Leftmost-match scan of the address regex. -/
def extractLoopE : Text → Option Text
  | [] => none
  | c :: r => if addrHere (c :: r) then some ((c :: r).take 42) else extractLoopE r

/-- `extractEthereumWalletAddress` of the transfer and balance actions. -/
def extractEthereumWalletAddress (t : Text) : Option Text := extractLoopE t

/-- An address match begins at position `i` of `t`. -/
def addrAt (t : Text) (i : Nat) : Bool := addrHere (t.drop i)

/-- Case-insensitive literal-word test at the head of a text (`w` is given
in lowercase), as used for the `(MNT|mnt)` and `(AISHOP|aishop)`
alternatives under the `i` flag. -/
def wordIHere (w : Text) (s : Text) : Bool := toLowerText (s.take w.length) == w

/-- Attempt of the regex `(\d+(\.\d+)?)\s*(WORD|word)/i` at the head of `s`,
returning capture group 1 (the decimal amount).  The optional fractional
group is tried greedily first and dropped on failure, matching the
backtracking behaviour of the JavaScript engine. -/
def matchNumWordAt (w : Text) (s : Text) : Option Text :=
  let ds := s.takeWhile isDigitCh
  let r1 := s.dropWhile isDigitCh
  if ds.isEmpty then none
  else
    let tailOk : Text → Bool := fun r => wordIHere w (r.dropWhile isSpaceCh)
    match r1 with
    | '.' :: r2 =>
      let fs := r2.takeWhile isDigitCh
      let r3 := r2.dropWhile isDigitCh
      if fs.isEmpty then (if tailOk r1 then some ds else none)
      else if tailOk r3 then some (ds ++ '.' :: fs)
      else if tailOk r1 then some ds else none
    | _ => if tailOk r1 then some ds else none

/-- Leftmost-match scan for the amount-plus-currency-word regex. -/
def extractAmountLoop (w : Text) : Text → Option Text
  | [] => none
  | c :: r =>
    match matchNumWordAt w (c :: r) with
    | some a => some a
    | none => extractAmountLoop w r

/-- `extractAmount` of the native-MNT transfer action:
regex `(\d+(\.\d+)?)\s*(MNT|mnt)/i`, returning `match[1]`. -/
def extractAmount (t : Text) : Option Text := extractAmountLoop (lit "mnt") t

/-- `extractTokenTransferInfo` of the ERC-20 transfer action:
regex `(\d+(\.\d+)?)\s*(AISHOP|aishop)/i`, returning the amount
(`match[1]`) and `match[3].toUpperCase()`, which is always `AISHOP`. -/
def extractTokenTransferInfo (t : Text) : Option (Text × Text) :=
  (extractAmountLoop (lit "aishop") t).map (fun a => (a, lit "AISHOP"))

/-! ### Units (model of viem `parseEther`/`parseUnits`/`formatEther`/`formatUnits`)

Amount strings reaching these functions are produced by the regexes above,
so they have the shape `\d+(\.\d+)?`; fractional digits beyond the token's
precision are truncated in this model. -/

/-- Decimal string to smallest-unit integer with `d` decimals. -/
def parseUnits (s : Text) (d : Nat) : Nat :=
  let ip := s.takeWhile isDigitCh
  let rest := s.dropWhile isDigitCh
  match rest with
  | '.' :: fr =>
    let fd := (fr.takeWhile isDigitCh).take d
    natOfDigits ip * 10 ^ d + natOfDigits fd * 10 ^ (d - fd.length)
  | _ => natOfDigits ip * 10 ^ d

/-- Decimal string to wei (18 decimals). -/
def parseEther (s : Text) : Nat := parseUnits s 18

/-- Strip trailing zeros of a fractional digit string. -/
def trimTrailingZeros (s : Text) : Text :=
  (s.reverse.dropWhile (fun c => c == '0')).reverse

/-- Left-pad a digit string with zeros to width `d`. -/
def padLeftZeros (s : Text) (d : Nat) : Text :=
  List.replicate (d - s.length) '0' ++ s

/-- Smallest-unit integer to decimal string with `d` decimals. -/
def formatUnits (n : Nat) (d : Nat) : Text :=
  let ip := n / 10 ^ d
  let fr := n % 10 ^ d
  if fr == 0 then natChars ip
  else natChars ip ++ '.' :: trimTrailingZeros (padLeftZeros (natChars fr) d)

/-- Wei to decimal MNT string (18 decimals). -/
def formatEther (n : Nat) : Text := formatUnits n 18

/-! ### Token registry (`src/agent/config/token.ts`) -/

/-- Kind of a configured token: the chain's native currency or an ERC-20
contract at a given address. -/
inductive TokenKind where
  | native : TokenKind
  | erc20 (address : Text) : TokenKind
  deriving DecidableEq

/-- One entry of the `TOKENS` registry. -/
structure TokenConfig where
  symbol : Text
  name : Text
  decimals : Nat
  kind : TokenKind
  deriving DecidableEq

/-- The `TOKENS` registry, in definition order: MNT first, then AISHOP. -/
def TOKENS : List TokenConfig :=
  [ ⟨lit "MNT", lit "Mantle", 18, .native⟩,
    ⟨lit "AISHOP", lit "AI Shop Agent", 18,
      .erc20 (lit "0x0E02649Db4d1Aa8c202aA44EA99e3606d12a21b1")⟩ ]

/-- `isERC20Token` of the token registry. -/
def isERC20Token (t : TokenConfig) : Bool :=
  match t.kind with
  | .erc20 _ => true
  | .native => false

/-- `getERC20Tokens`: the contract-backed tokens in registry order. -/
def getERC20Tokens : List TokenConfig := TOKENS.filter isERC20Token

/-- Object-key access `TOKENS[symbol]`. -/
def lookupToken (sym : Text) : Option TokenConfig :=
  TOKENS.find? (fun t => t.symbol == sym)

/-! ### Wallet store (`src/agent/actions/createWallet.ts`)

The host runtime's `cacheManager` is modelled as a reliable association
list from key to stored value; `set` overwrites any previous entry for the
key.  A stored value is either a raw structured wallet record or a
serialized string (the two representations `getUserWallet` must tolerate);
reverse-index entries are plain strings. -/

/-- The wallet record persisted per user (`walletData` in the source). -/
structure WalletData where
  address : Text
  privateKey : Text
  createdAt : Nat
  deriving DecidableEq

/-- JSON fragments of `JSON.stringify(walletData)` with the source's field
order: address, privateKey, createdAt. -/
def jsonA : Text := lit "\x7b\"address\":\""

/-- Fragment between the address value and the privateKey value. -/
def jsonB : Text := lit "\",\"privateKey\":\""

/-- Fragment between the privateKey value and the createdAt value. -/
def jsonC : Text := lit "\",\"createdAt\":"

/-- Closing fragment of the serialized record. -/
def jsonD : Text := lit "\x7d"

/-- `jsonB` without its leading closing-quote character. -/
def jsonB2 : Text := lit ",\"privateKey\":\""

/-- `jsonC` without its leading closing-quote character. -/
def jsonC2 : Text := lit ",\"createdAt\":"

/-- `JSON.stringify` of a wallet record. -/
def stringifyWallet (w : WalletData) : Text :=
  jsonA ++ w.address ++ jsonB ++ w.privateKey ++ jsonC ++ natChars w.createdAt ++ jsonD

/-- Strip a literal prefix, or fail. -/
def stripPre (p t : Text) : Option Text :=
  if p.isPrefixOf t then some (t.drop p.length) else none

/-- Take characters up to (and consuming) the next double quote. -/
def takeUntilQuote : Text → Option (Text × Text)
  | [] => none
  | c :: r =>
    if c = '"' then some ([], r)
    else (takeUntilQuote r).map (fun p => (c :: p.1, p.2))

/-- `JSON.parse` on the serialized wallet-record shape: succeeds exactly on
texts of the form produced by `stringifyWallet`, failing (like a thrown
`SyntaxError`, caught by the source) on anything else. -/
def parseWallet (s : Text) : Option WalletData :=
  match stripPre jsonA s with
  | none => none
  | some r1 =>
    match takeUntilQuote r1 with
    | none => none
    | some (addr, r2) =>
      match stripPre jsonB2 r2 with
      | none => none
      | some r3 =>
        match takeUntilQuote r3 with
        | none => none
        | some (pk, r4) =>
          match stripPre jsonC2 r4 with
          | none => none
          | some r5 =>
            let ds := r5.takeWhile isDigitCh
            let r6 := r5.dropWhile isDigitCh
            if ds.isEmpty then none
            else if r6 == jsonD then some ⟨addr, pk, natOfDigits ds⟩
            else none

/-- A value stored in the runtime cache. -/
inductive CacheVal where
  | str (s : Text) : CacheVal
  | wallet (w : WalletData) : CacheVal
  deriving DecidableEq

/-- The runtime cache. -/
abbrev Cache := List (Text × CacheVal)

/-- `cacheManager.get`. -/
def cacheGet (c : Cache) (k : Text) : Option CacheVal :=
  (c.find? (fun p => p.1 == k)).map (fun p => p.2)

/-- `cacheManager.set`: overwrite any previous entry for the key. -/
def cacheSet (c : Cache) (k : Text) (v : CacheVal) : Cache :=
  (k, v) :: c.filter (fun p => p.1 != k)

/-- The forward key `user_wallet:{userId}`. -/
def userWalletKey (uid : Text) : Text := lit "user_wallet:" ++ uid

/-- The reverse-index key `address_to_user:{address}`; the address is used
exactly as given, with no case normalization. -/
def addressToUserKey (a : Text) : Text := lit "address_to_user:" ++ a

/-- JavaScript truthiness of a cached value (`!!value`, `!value`). -/
def truthy : CacheVal → Bool
  | .str s => !s.isEmpty
  | .wallet _ => true

/-- `userHasWallet`: true iff the forward record exists (and is truthy). -/
def userHasWallet (c : Cache) (uid : Text) : Bool :=
  match cacheGet c (userWalletKey uid) with
  | some v => truthy v
  | none => false

/-- `saveUserWallet`: write the forward record as a serialized string, then
the reverse-index entry under the address exactly as derived. -/
def saveUserWallet (c : Cache) (uid : Text) (w : WalletData) : Cache × Bool :=
  let c1 := cacheSet c (userWalletKey uid) (.str (stringifyWallet w))
  let c2 := cacheSet c1 (addressToUserKey w.address) (.str uid)
  (c2, true)

/-- `getUserWallet`: absent or falsy value gives `null`; a string value is
`JSON.parse`d (a parse failure is caught and gives `null`); a structured
value is used directly.  Only address and privateKey are returned. -/
def getUserWallet (c : Cache) (uid : Text) : Option (Text × Text) :=
  match cacheGet c (userWalletKey uid) with
  | none => none
  | some v =>
    if truthy v then
      match v with
      | .str s => (parseWallet s).map (fun w => (w.address, w.privateKey))
      | .wallet w => some (w.address, w.privateKey)
    else none

/-- `getUserIdByAddress`: look up `address_to_user:{address}` with the
address exactly as given; only a string-typed value is returned. -/
def getUserIdByAddress (c : Cache) (a : Text) : Option Text :=
  match cacheGet c (addressToUserKey a) with
  | some (.str uid) => some uid
  | _ => none

/-! ### Wallet session (`src/agent/providers/wallet.ts`)

A `WalletProvider` binds one account to the configured chain; its address
is derived once from the private key.  Key derivation
(`privateKeyToAccount`) is an external library function, supplied to each
flow environment as `derive`. -/

/-- The per-request signing handle; only its derived address matters to the
flows' observable behaviour. -/
structure Provider where
  address : Text
  deriving DecidableEq

/-- Key normalization of `initUserWalletProvider`: prepend `0x` if absent. -/
def normalizeKey (pk : Text) : Text :=
  if (lit "0x").isPrefixOf pk then pk else lit "0x" ++ pk

/-- `initUserWalletProvider`: read the user's stored wallet and build a
session handle from its (normalized) private key. -/
def initUserWalletProvider (c : Cache) (uid : Text) (derive : Text → Text) :
    Option Provider :=
  (getUserWallet c uid).map (fun p => ⟨derive (normalizeKey p.2)⟩)

/-! ### Flow observables

Each action emits callback texts in order, persists interaction records
via `documentsManager.createMemory`, and may submit transactions.  RPC
failures are `Except.error` values carrying the error message
(`error.message` in the source). -/

/-- The flow-specific structured payload of a persisted interaction
record. -/
inductive MemPayload where
  | walletCreated (addr : Text) (createdAt : Nat) : MemPayload
  | transferNative (hash fromA toA amount : Text) (blockNumber : Nat) (ok : Bool) : MemPayload
  | transferToken (hash fromA toA sym tokenAddr amount : Text) (blockNumber : Nat) (ok : Bool) : MemPayload
  | balanceReport (mnt aishop target : Text) : MemPayload
  deriving DecidableEq

/-- One persisted interaction record (action tag plus payload). -/
structure MemoryRec where
  action : Text
  payload : MemPayload
  deriving DecidableEq

/-- One transaction submission: destination, and the hash if the broadcast
returned one. -/
structure Bcast where
  toAddr : Text
  hash : Option Text
  deriving DecidableEq

/-- A transaction receipt as consumed by the flows. -/
structure Receipt where
  ok : Bool
  blockNumber : Nat
  deriving DecidableEq

/-- Observable outcome of one action invocation. -/
structure ActionResult where
  replies : List Text
  memories : List MemoryRec
  broadcasts : List Bcast
  ret : Bool
  deriving DecidableEq

/-! ### Reply texts (translated from the source's template strings) -/

/-- Reply when no user id is resolvable. -/
def noUserText : Text :=
  lit "No se pudo identificar tu cuenta. Por favor inténtalo de nuevo o contacta a soporte."

/-- Native-transfer reply when the caller has no wallet. -/
def needWalletMNTText : Text :=
  lit "Necesitas crear una wallet antes de poder realizar transferencias. Puedes decirme \x27crear wallet\x27 para configurar una."

/-- Token-transfer reply when the caller has no wallet. -/
def needWalletTokenText : Text :=
  lit "Necesitas crear una wallet antes de poder realizar transferencias de tokens. Puedes decirme \x27crear wallet\x27 para configurar una."

/-- Reply when the stored wallet cannot be opened as a session. -/
def cantAccessWalletText : Text :=
  lit "No se pudo acceder a tu wallet. Por favor intenta crear una nueva wallet o contacta a soporte."

/-- Reply when no destination address is found in the message. -/
def noAddressText : Text :=
  lit "No se pudo identificar una dirección de wallet válida en tu mensaje. Por favor, proporciona una dirección en formato 0x..."

/-- Reply when no MNT amount is found in the message. -/
def noAmountMNTText : Text :=
  lit "No se pudo identificar la cantidad de MNT a transferir. Por favor, especifica una cantidad (por ejemplo, \x270.1 MNT\x27)."

/-- Reply when no token amount is found in the message. -/
def noTokenInfoText : Text :=
  lit "No se pudo identificar la cantidad y el tipo de token a transferir. Por favor, especifica una cantidad y el token (por ejemplo, \x27100 AISHOP\x27)."

/-- Reply when the mentioned token is not a configured ERC-20. -/
def tokenNotConfiguredText (sym : Text) : Text :=
  lit "No se encontró configuración para el token " ++ sym ++
  lit " o no es un token ERC20."

/-- Insufficient-funds reply of the native transfer, stating held and
requested amounts. -/
def insufficientMNTText (held req : Text) : Text :=
  lit "Balance insuficiente para realizar la transferencia. Tienes " ++ held ++
  lit " MNT y estás intentando enviar " ++ req ++ lit " MNT."

/-- Insufficient-funds reply of the token transfer, stating held and
requested amounts. -/
def insufficientTokenText (held req sym : Text) : Text :=
  lit "Balance insuficiente para realizar la transferencia. Tienes " ++ held ++
  lit " " ++ sym ++ lit " y estás intentando enviar " ++ req ++ lit " " ++ sym ++ lit "."

/-- Progress reply of the native transfer. -/
def processingMNTText (amt fromA toA : Text) : Text :=
  lit "Procesando transferencia de " ++ amt ++
  lit " MNT desde tu wallet personal (" ++ fromA ++ lit ") hacia " ++ toA ++ lit "..."

/-- Progress reply of the token transfer. -/
def processingTokenText (amt sym fromA toA : Text) : Text :=
  lit "Procesando transferencia de " ++ amt ++ lit " " ++ sym ++
  lit " desde tu wallet personal (" ++ fromA ++ lit ") hacia " ++ toA ++ lit "..."

/-- Catch-all error reply of the native transfer. -/
def transferMNTErrorText (msg : Text) : Text :=
  lit "Error al transferir MNT: " ++ msg

/-- Catch-all error reply of the token transfer. -/
def transferTokenErrorText (msg : Text) : Text :=
  lit "Error al transferir token ERC20: " ++ msg

/-- Success reply of the native transfer. -/
def successMNTText (amt fromA toA hash : Text) (ok : Bool) : Text :=
  joinLines
    [ lit "✅ Transferencia completada con éxito:",
      lit "",
      lit "Cantidad: " ++ amt ++ lit " MNT",
      lit "De: " ++ fromA ++ lit " (tu wallet)",
      lit "Para: " ++ toA,
      lit "Hash de Transacción: " ++ hash,
      lit "Estado: " ++ (if ok then lit "Exitoso" else lit "Pendiente"),
      lit "",
      lit "Ver en el explorador: https://sepolia.mantlescan.xyz/tx/" ++ hash ]

/-- Success reply of the token transfer. -/
def successTokenText (sym name amt fromA toA hash : Text) (ok : Bool) : Text :=
  joinLines
    [ lit "✅ Transferencia de token ERC20 completada con éxito:",
      lit "",
      lit "Token: " ++ sym ++ lit " (" ++ name ++ lit ")",
      lit "Cantidad: " ++ amt ++ lit " " ++ sym,
      lit "De: " ++ fromA ++ lit " (tu wallet)",
      lit "Para: " ++ toA,
      lit "Hash de Transacción: " ++ hash,
      lit "Estado: " ++ (if ok then lit "Exitoso" else lit "Pendiente"),
      lit "",
      lit "Ver en el explorador: https://sepolia.mantlescan.xyz/tx/" ++ hash ]

/-! ### Transfer flows -/

/-- Environment of one transfer invocation: caller identity, message text,
cache state, key derivation, and the RPC oracles in call order (preflight
balance read, broadcast, confirmation wait). -/
structure TransferEnv where
  userId : Option Text
  text : Text
  cache : Cache
  derive : Text → Text
  balanceRes : Except Text Nat
  sendRes : Except Text Text
  receiptRes : Except Text Receipt

/-- The `TRANSFER_MNT` action handler (`transferMNTAction.handler`).
The preflight `getBalance` is not guarded by an inner try, so its failure
reaches the outer catch and terminates the invocation. -/
def transferMNT (env : TransferEnv) : ActionResult :=
  match env.userId with
  | none => ⟨[noUserText], [], [], false⟩
  | some uid =>
    if userHasWallet env.cache uid then
      match initUserWalletProvider env.cache uid env.derive with
      | none => ⟨[cantAccessWalletText], [], [], false⟩
      | some prov =>
        match extractEthereumWalletAddress env.text with
        | none => ⟨[noAddressText], [], [], false⟩
        | some toA =>
          match extractAmount env.text with
          | none => ⟨[noAmountMNTText], [], [], false⟩
          | some amountStr =>
            let value := parseEther amountStr
            let fromAddress := prov.address
            match env.balanceRes with
            | .error e => ⟨[transferMNTErrorText e], [], [], false⟩
            | .ok currentBalance =>
              if currentBalance < value then
                ⟨[insufficientMNTText (formatEther currentBalance) amountStr], [], [], false⟩
              else
                let processing := processingMNTText amountStr fromAddress toA
                match env.sendRes with
                | .error e => ⟨[processing, transferMNTErrorText e], [], [⟨toA, none⟩], false⟩
                | .ok txHash =>
                  match env.receiptRes with
                  | .error e =>
                    ⟨[processing, transferMNTErrorText e], [], [⟨toA, some txHash⟩], false⟩
                  | .ok receipt =>
                    let success := successMNTText amountStr fromAddress toA txHash receipt.ok
                    ⟨[processing, success],
                     [⟨lit "TRANSFER_MNT",
                       .transferNative txHash fromAddress toA amountStr receipt.blockNumber receipt.ok⟩],
                     [⟨toA, some txHash⟩], true⟩
    else ⟨[needWalletMNTText], [], [], false⟩

/-- The `TRANSFER_ERC20` action handler (`transferERC20Action.handler`).
The preflight `balanceOf` read sits in a try whose catch only logs and
continues, so a failed balance fetch does not stop the flow. -/
def transferERC20 (env : TransferEnv) : ActionResult :=
  match env.userId with
  | none => ⟨[noUserText], [], [], false⟩
  | some uid =>
    if userHasWallet env.cache uid then
      match initUserWalletProvider env.cache uid env.derive with
      | none => ⟨[cantAccessWalletText], [], [], false⟩
      | some prov =>
        match extractEthereumWalletAddress env.text with
        | none => ⟨[noAddressText], [], [], false⟩
        | some toA =>
          match extractTokenTransferInfo env.text with
          | none => ⟨[noTokenInfoText], [], [], false⟩
          | some (amountStr, sym) =>
            match lookupToken sym with
            | none => ⟨[tokenNotConfiguredText sym], [], [], false⟩
            | some token =>
              match token.kind with
              | .native => ⟨[tokenNotConfiguredText sym], [], [], false⟩
              | .erc20 tokenAddr =>
                let amountInSmallestUnit := parseUnits amountStr token.decimals
                let fromAddress := prov.address
                let afterPreflight : ActionResult :=
                  let processing := processingTokenText amountStr token.symbol fromAddress toA
                  match env.sendRes with
                  | .error e => ⟨[processing, transferTokenErrorText e], [], [⟨toA, none⟩], false⟩
                  | .ok txHash =>
                    match env.receiptRes with
                    | .error e =>
                      ⟨[processing, transferTokenErrorText e], [], [⟨toA, some txHash⟩], false⟩
                    | .ok receipt =>
                      let success :=
                        successTokenText token.symbol token.name amountStr fromAddress toA
                          txHash receipt.ok
                      ⟨[processing, success],
                       [⟨lit "TRANSFER_ERC20",
                         .transferToken txHash fromAddress toA token.symbol tokenAddr amountStr
                           receipt.blockNumber receipt.ok⟩],
                       [⟨toA, some txHash⟩], true⟩
                match env.balanceRes with
                | .ok tokenBalance =>
                  if tokenBalance < amountInSmallestUnit then
                    ⟨[insufficientTokenText (formatUnits tokenBalance token.decimals) amountStr
                        token.symbol], [], [], false⟩
                  else afterPreflight
                | .error _ => afterPreflight
    else ⟨[needWalletTokenText], [], [], false⟩

/-! ### Wallet provisioning flow (`createWalletAction.handler`) -/

/-- Environment of one provisioning invocation: caller identity, cache
state, and the freshly generated key pair (`generatePrivateKey` plus
`privateKeyToAccount`, external randomness) with the creation
timestamp. -/
structure CreateEnv where
  userId : Option Text
  cache : Cache
  genAddress : Text
  genPrivateKey : Text
  now : Nat

/-- Outcome of one provisioning invocation, including the resulting cache
state. -/
structure CreateResult where
  replies : List Text
  memories : List MemoryRec
  cache : Cache
  ret : Bool
  deriving DecidableEq

/-- Reply when an existing wallet record is detected but unreadable. -/
def walletCorruptText : Text :=
  lit "Se detectó una wallet registrada, pero no se pudo recuperar su información. Por favor contacta a soporte."

/-- Reply returning the existing address on a repeat provisioning request. -/
def alreadyHaveWalletText (addr : Text) : Text :=
  lit "Ya tienes una wallet creada. Tu dirección es:\n\n`" ++ addr ++
  lit "`\n\nTu wallet está segura y lista para usar."

/-- Progress reply before key generation. -/
def creatingWalletText : Text :=
  lit "Creando una nueva wallet para ti. Esto tomará solo un momento..."

/-- Reply when the store write fails. -/
def walletSaveFailedText : Text :=
  lit "Hubo un problema al guardar tu wallet. Por favor inténtalo de nuevo más tarde."

/-- Success reply containing the freshly derived address. -/
def walletCreatedText (addr : Text) : Text :=
  joinLines
    [ lit "✅ ¡Tu wallet ha sido creada con éxito!",
      lit "",
      lit "Tu dirección pública es:",
      lit "`" ++ addr ++ lit "`",
      lit "",
      lit "Esta wallet está asociada a tu cuenta de usuario y puede ser utilizada para:",
      lit "- Recibir y enviar tokens MNT",
      lit "- Recibir y enviar tokens AISHOP",
      lit "- Interactuar con aplicaciones en la red Mantle",
      lit "",
      lit "Tu clave privada está almacenada de forma segura y se utilizará automáticamente cuando necesites realizar transacciones.",
      lit "",
      lit "Puedes consultar tu balance en cualquier momento escribiendo \"ver mi balance\" o \"check balance\"." ]

/-- The `CREATE_WALLET` action handler: check existing wallet first; if one
exists return its address without generating or writing anything;
otherwise generate, persist forward and reverse entries, persist an
interaction record, and report the new address. -/
def createWalletFlow (env : CreateEnv) : CreateResult :=
  match env.userId with
  | none => ⟨[noUserText], [], env.cache, false⟩
  | some uid =>
    if userHasWallet env.cache uid then
      match getUserWallet env.cache uid with
      | none => ⟨[walletCorruptText], [], env.cache, false⟩
      | some wallet => ⟨[alreadyHaveWalletText wallet.1], [], env.cache, true⟩
    else
      let walletData : WalletData := ⟨env.genAddress, env.genPrivateKey, env.now⟩
      let saveOut := saveUserWallet env.cache uid walletData
      if saveOut.2 then
        ⟨[creatingWalletText, walletCreatedText env.genAddress],
         [⟨lit "CREATE_WALLET", .walletCreated env.genAddress env.now⟩],
         saveOut.1, true⟩
      else ⟨[creatingWalletText, walletSaveFailedText], [], saveOut.1, false⟩

/-! ### Balance query flow (`checkBalanceAction.handler`) -/

/-- Environment of one balance query: caller identity, message text, cache
state, key derivation, the `EVM_PRIVATE_KEY` setting (needed only by the
explicit-address path to build a generic client), and the RPC oracles:
native balance, token `decimals()`, token `balanceOf()`. -/
structure BalanceEnv where
  userId : Option Text
  text : Text
  cache : Cache
  derive : Text → Text
  settingKey : Option Text
  nativeRes : Except Text Nat
  tokenDecRes : Except Text Nat
  tokenBalRes : Except Text Nat

/-- Marker shown for the AISHOP balance when its fetch fails
(balance-check action). -/
def aishopErrMarkText : Text := lit "Error al obtener balance"

/-- Reply when the generic public client cannot be built. -/
def clientInitFailText : Text :=
  lit "No se pudo inicializar el cliente para consultar balances. Contacta a soporte."

/-- Reply when the caller has no wallet yet. -/
def noWalletYetText : Text :=
  joinLines
    [ lit "No tienes una wallet creada todavía. Para crear tu wallet personal, simplemente escribe:",
      lit "",
      lit "\"Crear wallet\"",
      lit "",
      lit "Una vez creada, podrás consultar tus balances y realizar transacciones." ]

/-- Reply when the caller's stored wallet cannot be opened. -/
def walletAccessProblemText : Text :=
  lit "Hubo un problema al acceder a tu wallet. Por favor intenta crear una nueva wallet o contacta a soporte."

/-- Catch-all error reply of the balance-check action. -/
def checkBalanceErrorText (msg : Text) : Text :=
  lit "Error al verificar balances: " ++ msg

/-- Report lines of the explicit-address path, in emission order. -/
def balanceLinesAddr (addr mnt aishop : Text) : List Text :=
  [ lit "Balances en Mantle Sepolia Testnet para " ++ addr ++ lit ":",
    lit "MNT: " ++ mnt,
    lit "AISHOP: " ++ aishop,
    lit "",
    lit "Ver en Explorer: https://sepolia.mantlescan.xyz/address/" ++ addr ]

/-- Report lines of the own-wallet path, in emission order. -/
def balanceLinesOwn (addr mnt aishop : Text) : List Text :=
  [ lit "📊 Tus Balances en Mantle Sepolia Testnet:",
    lit "",
    lit "Dirección: " ++ addr,
    lit "MNT: " ++ mnt,
    lit "AISHOP: " ++ aishop,
    lit "",
    lit "Ver en Explorer: https://sepolia.mantlescan.xyz/address/" ++ addr ]

/-- The `CHECK_BALANCE` action handler.  The native fetch is unguarded, so
its failure reaches the outer catch and aborts the flow; each AISHOP fetch
sits in its own try whose catch degrades only that displayed value.  In
the explicit-address path the token's configured decimals are used; in the
own-wallet path `getTokenBalance` reads `decimals()` from the contract. -/
def checkBalanceFlow (env : BalanceEnv) : ActionResult :=
  match env.userId with
  | none => ⟨[noUserText], [], [], false⟩
  | some uid =>
    match extractEthereumWalletAddress env.text with
    | some addressFromMessage =>
      match env.settingKey with
      | none => ⟨[clientInitFailText], [], [], false⟩
      | some _ =>
        match env.nativeRes with
        | .error e => ⟨[checkBalanceErrorText e], [], [], false⟩
        | .ok nativeBalance =>
          let mnt := formatEther nativeBalance
          let aishop :=
            match env.tokenBalRes with
            | .ok tokenBalance => formatUnits tokenBalance 18
            | .error _ => aishopErrMarkText
          let balanceText := joinLines (balanceLinesAddr addressFromMessage mnt aishop)
          ⟨[balanceText],
           [⟨lit "CHECK_BALANCE", .balanceReport mnt aishop addressFromMessage⟩],
           [], true⟩
    | none =>
      if userHasWallet env.cache uid then
        match initUserWalletProvider env.cache uid env.derive with
        | none => ⟨[walletAccessProblemText], [], [], false⟩
        | some prov =>
          match env.nativeRes with
          | .error e => ⟨[checkBalanceErrorText e], [], [], false⟩
          | .ok nativeBalance =>
            let mnt := formatEther nativeBalance
            let aishop :=
              match env.tokenDecRes, env.tokenBalRes with
              | .ok tokenDecimals, .ok tokenBalance => formatUnits tokenBalance tokenDecimals
              | _, _ => aishopErrMarkText
            let balanceText := joinLines (balanceLinesOwn prov.address mnt aishop)
            ⟨[balanceText],
             [⟨lit "CHECK_BALANCE", .balanceReport mnt aishop prov.address⟩],
             [], true⟩
      else ⟨[noWalletYetText], [], [], false⟩

/-! ### Wallet provider (`walletProvider.get` in `src/agent/providers/wallet.ts`) -/

/-- Marker shown for the AISHOP balance when its fetch fails (wallet
provider). -/
def provErrMarkText : Text := lit "Error al consultar"

/-- Provider output when balance lookup for an explicit address fails. -/
def provAddrErrorText (addr msg : Text) : Text :=
  lit "Error al obtener el balance de " ++ addr ++ lit ": " ++ msg

/-- Provider output when the caller has no wallet. -/
def provNoWalletText : Text :=
  joinLines
    [ lit "No tienes una wallet creada. Para crear tu wallet personal, simplemente dime:",
      lit "",
      lit "\"Crear wallet\"",
      lit "",
      lit "Una vez creada tu wallet, podrás consultar tu balance y realizar transacciones." ]

/-- Provider output when the caller's wallet cannot be opened. -/
def provAccessProblemText : Text :=
  joinLines
    [ lit "Parece que hay un problema al acceder a tu wallet. Por favor, intenta las siguientes soluciones:",
      lit "",
      lit "1. Escribe \x27crear wallet\x27 para intentar restablecer tu wallet.",
      lit "2. Contacta a soporte si el problema persiste." ]

/-- Provider output when reading the caller's own wallet information
fails. -/
def provOwnErrorText (msg : Text) : Text :=
  lit "Error al acceder a la información de la wallet: " ++ msg

/-- Provider report lines for an explicit address, in emission order. -/
def provLinesAddr (addr mnt aishop : Text) : List Text :=
  [ lit "Información de Dirección en Mantle Sepolia:",
    lit "Dirección: " ++ addr,
    lit "Balance MNT: " ++ mnt ++ lit " MNT",
    lit "Balance AISHOP: " ++ aishop ++ lit " AISHOP",
    lit "",
    lit "Ver en Explorador: https://sepolia.mantlescan.xyz/address/" ++ addr ]

/-- Provider report lines for the caller's own wallet, in emission
order. -/
def provLinesOwn (addr mnt aishop : Text) : List Text :=
  [ lit "Información de Tu Wallet en Mantle Sepolia:",
    lit "Dirección: " ++ addr,
    lit "Balance MNT: " ++ mnt ++ lit " MNT",
    lit "Balance AISHOP: " ++ aishop ++ lit " AISHOP",
    lit "",
    lit "Tu wallet está correctamente configurada y lista para transacciones.",
    lit "Ver en Explorador: https://sepolia.mantlescan.xyz/address/" ++ addr ]

/-- The wallet provider's `get`: same native/token failure asymmetry as the
balance action (native failure aborts with an error message, AISHOP
failure degrades one field).  An explicit address found in the text is
lowercased before use; both token reads (`decimals()`, `balanceOf()`) go
through `getTokenBalance`-style sequential calls. -/
def walletProviderGet (env : BalanceEnv) : Text :=
  match env.userId with
  | none => noUserText
  | some uid =>
    match extractEthereumWalletAddress env.text with
    | some addressMatch =>
      let address := toLowerText addressMatch
      match env.nativeRes with
      | .error e => provAddrErrorText address e
      | .ok nativeBalance =>
        let aishop :=
          match env.tokenDecRes, env.tokenBalRes with
          | .ok tokenDecimals, .ok tokenBalance => formatUnits tokenBalance tokenDecimals
          | _, _ => provErrMarkText
        joinLines (provLinesAddr address (formatEther nativeBalance) aishop)
    | none =>
      if userHasWallet env.cache uid then
        match initUserWalletProvider env.cache uid env.derive with
        | none => provAccessProblemText
        | some prov =>
          match env.nativeRes with
          | .error e => provOwnErrorText e
          | .ok nativeBalance =>
            let aishop :=
              match env.tokenDecRes, env.tokenBalRes with
              | .ok tokenDecimals, .ok tokenBalance => formatUnits tokenBalance tokenDecimals
              | _, _ => provErrMarkText
            joinLines (provLinesOwn prov.address (formatEther nativeBalance) aishop)
      else provNoWalletText

/-! ### Identifier generation (`generateId`)

`"xxxxxxxx-xxxx-4xxx-yxxx-xxxxxxxxxxxx".replace(/[xy]/g, ...)`: every `x`
becomes a fresh random nibble in hex, every `y` becomes `(r & 0x3) | 0x8`
in hex, and every other template character is copied.  The random source
`(Math.random() * 16) | 0` always lands in `0..15`, modelled as a stream
of `Fin 16` draws consumed left to right. -/

/-- JavaScript `v.toString(16)` for a nibble. -/
def hexNib (n : Nat) : Char :=
  if n < 10 then Char.ofNat (48 + n) else Char.ofNat (87 + n)

/-- Replacement for a template `x`. -/
def xChar (r : Fin 16) : Char := hexNib r.val

/-- Replacement for a template `y`: `(r & 0x3) | 0x8`. -/
def yChar (r : Fin 16) : Char := hexNib ((r.val &&& 3) ||| 8)

/-- The UUID template of `generateId`. -/
def uuidTemplate : Text := lit "xxxxxxxx-xxxx-4xxx-yxxx-xxxxxxxxxxxx"

/-- `replace(/[xy]/g, ...)` over the template, consuming one draw per `x`
or `y` occurrence. -/
def genIdAux : Text → Nat → (Nat → Fin 16) → Text
  | [], _, _ => []
  | c :: rest, i, g =>
    if c = 'x' then xChar (g i) :: genIdAux rest (i + 1) g
    else if c = 'y' then yChar (g i) :: genIdAux rest (i + 1) g
    else c :: genIdAux rest i g

/-- `generateId`, as a function of the random draw stream. -/
def generateId (g : Nat → Fin 16) : Text := genIdAux uuidTemplate 0 g

/-- Lowercase hexadecimal digit test (the digits `generateId` emits). -/
def isHexLowerCh (c : Char) : Bool :=
  (('0' ≤ c && c ≤ '9') || ('a' ≤ c && c ≤ 'f'))

/-- A variant nibble: one of `8`, `9`, `a`, `b`. -/
def isVariantCh (c : Char) : Bool :=
  c == '8' || c == '9' || c == 'a' || c == 'b'

/-- Shape constraint on the character at index `i` of a version-4
UUID-like identifier: hyphens at 8, 13, 18, 23; the version nibble `4` at
14; a variant nibble in `8, 9, a, b` at 19; lowercase hex elsewhere. -/
def uuidCharOk (i : Nat) (c : Char) : Bool :=
  if i == 8 || i == 13 || i == 18 || i == 23 then c == '-'
  else if i == 14 then c == '4'
  else if i == 19 then isVariantCh c
  else isHexLowerCh c

/-- Check every position and a total length of 36. -/
def uuidShapeAux : Nat → Text → Bool
  | i, [] => i == 36
  | i, c :: r => uuidCharOk i c && uuidShapeAux (i + 1) r

/-- A text is a 36-character 8-4-4-4-12 UUID-like identifier with fixed
version and variant nibbles. -/
def uuidShape (t : Text) : Bool := uuidShapeAux 0 t

/-! ### Auxiliary notions used to state the claims -/

/-- Alphanumeric test, delimiting complete tokens of a message text. -/
def isAlnumCh (c : Char) : Bool := c.isAlphanum

/-- Accumulating scan splitting a text into maximal alphanumeric runs. -/
def wordsAux : Text → Text → List Text
  | [], acc => if acc.isEmpty then [] else [acc.reverse]
  | c :: r, acc =>
    if isAlnumCh c then wordsAux r (c :: acc)
    else if acc.isEmpty then wordsAux r []
    else acc.reverse :: wordsAux r []

/-- The maximal alphanumeric runs (complete tokens) of a text. -/
def wordsOf (t : Text) : List Text := wordsAux t []

/-- A complete token that is exactly `0x` followed by forty hexadecimal
characters. -/
def wellFormedAddr (w : Text) : Bool :=
  match w with
  | '0' :: 'x' :: h => (h.length == 40) && h.all isHexDigitCh
  | _ => false

/-- The text contains a well-formed address as a complete token. -/
def hasCompleteTokenAddress (t : Text) : Bool := (wordsOf t).any wellFormedAddr

/-- Number of cache entries stored under a key. -/
def countKey (c : Cache) (k : Text) : Nat :=
  (c.filter (fun p => p.1 == k)).length

/-- Did an RPC oracle succeed? -/
def exOk (x : Except Text Nat) : Bool :=
  match x with
  | .ok _ => true
  | .error _ => false

/-- A line list in which some line carries the `MNT` prefix, some line
carries the `AISHOP` prefix, and the (unique) `MNT` line precedes every
`AISHOP`-prefixed line. -/
def mntBeforeAishop (L : List Text) (mntPre aiPre : Text) : Prop :=
  ∃ i, (∃ m, L.get? i = some (mntPre ++ m)) ∧
    (∃ j s, L.get? j = some (aiPre ++ s)) ∧
    (∀ j s, L.get? j = some (aiPre ++ s) → i < j)

/-! ### Concrete fixtures for witnesses and counterexamples -/

/-- A user identifier. -/
def uid1 : Text := lit "user-1"

/-- A mixed-case (checksummed-style) derived address. -/
def addr1 : Text := lit "0xAbCdEfAbCdEfAbCdEfAbCdEfAbCdEfAbCdEfAbCd"

/-- A private key. -/
def pk1 : Text := lit "0x1111111111111111111111111111111111111111111111111111111111111111"

/-- A stored wallet record. -/
def wallet1 : WalletData := ⟨addr1, pk1, 5⟩

/-- A cache holding `wallet1` for `uid1`. -/
def cache1 : Cache := (saveUserWallet [] uid1 wallet1).1

/-- A key-derivation oracle consistent with `wallet1`. -/
def derive1 : Text → Text := fun _ => addr1

/-- A token-transfer invocation whose preflight balance fetch fails while
broadcast and confirmation would succeed. -/
def c2Env : TransferEnv :=
  ⟨some uid1, lit "enviar 5 AISHOP a 0x2222222222222222222222222222222222222222",
   cache1, derive1, Except.error (lit "rpc timeout"), Except.ok (lit "0xhash1"),
   Except.ok ⟨true, 12⟩⟩

/-! ## Helper lemmas -/

theorem isPrefixOf_append_self (p r : Text) : p.isPrefixOf (p ++ r) = true := by
  induction p with
  | nil => simp [List.isPrefixOf]
  | cons a p ih => simp [List.isPrefixOf, ih]

theorem stripPre_append (p r : Text) : stripPre p (p ++ r) = some r := by
  simp [stripPre, isPrefixOf_append_self, List.drop_left]

theorem takeUntilQuote_append (a r : Text) (h : '"' ∉ a) :
    takeUntilQuote (a ++ '"' :: r) = some (a, r) := by
  induction a with
  | nil => simp [takeUntilQuote]
  | cons c a ih =>
    have hc : c ≠ '"' := fun hc => h (hc ▸ List.mem_cons_self c a)
    have h' : '"' ∉ a := fun hm => h (List.mem_cons_of_mem c hm)
    simp [takeUntilQuote, hc, ih h']

theorem takeWhile_all_append {p : Char → Bool} (xs : Text) (y : Char) (ys : Text)
    (h1 : xs.all p = true) (h2 : p y = false) :
    (xs ++ y :: ys).takeWhile p = xs ∧ (xs ++ y :: ys).dropWhile p = y :: ys := by
  induction xs with
  | nil => simp [List.takeWhile, List.dropWhile, h2]
  | cons x xs ih =>
    have hx : p x = true := (List.all_cons .. ▸ h1 : (p x && xs.all p) = true) |> Bool.and_elim_left
    have hxs : xs.all p = true := (List.all_cons .. ▸ h1 : (p x && xs.all p) = true) |> Bool.and_elim_right
    have := ih hxs
    simp [List.takeWhile, List.dropWhile, hx, this.1, this.2]

theorem digitChar_digit : ∀ k, k < 10 → isDigitCh (digitChar k) = true := by decide

theorem natCharsAux_digits (fuel : Nat) :
    ∀ n, n < fuel → (natCharsAux fuel n).all isDigitCh = true ∧ natCharsAux fuel n ≠ [] := by
  induction fuel with
  | zero => intro n h; omega
  | succ f ih =>
    intro n h
    by_cases h10 : n < 10
    · simp [natCharsAux, h10, digitChar_digit n h10]
    · have hd : n / 10 < f := by
        have h1 : n / 10 < n := Nat.div_lt_self (by omega) (by omega)
        omega
      have := ih (n / 10) hd
      simp [natCharsAux, h10, List.all_append, this.1,
        digitChar_digit (n % 10) (Nat.mod_lt _ (by omega))]

theorem natChars_all_digit (n : Nat) : (natChars n).all isDigitCh = true :=
  (natCharsAux_digits (n + 1) n (Nat.lt_succ_self n)).1

theorem natChars_ne_nil (n : Nat) : natChars n ≠ [] :=
  (natCharsAux_digits (n + 1) n (Nat.lt_succ_self n)).2

theorem parseWallet_stringify (w : WalletData)
    (ha : '"' ∉ w.address) (hp : '"' ∉ w.privateKey) :
    parseWallet (stringifyWallet w) =
      some ⟨w.address, w.privateKey, natOfDigits (natChars w.createdAt)⟩ := by
  have hB : jsonB = '"' :: jsonB2 := rfl
  have hC : jsonC = '"' :: jsonC2 := rfl
  have hD : jsonD = '\x7d' :: [] := rfl
  have hspan := takeWhile_all_append (p := isDigitCh) (natChars w.createdAt) '\x7d' []
    (natChars_all_digit _) (by decide)
  have hne : (natChars w.createdAt).isEmpty = false := by
    cases hnc : natChars w.createdAt with
    | nil => exact absurd hnc (natChars_ne_nil _)
    | cons a l => rfl
  simp only [stringifyWallet, hB, hC, hD, List.append_assoc, List.cons_append,
    parseWallet, stripPre_append, takeUntilQuote_append _ _ ha,
    takeUntilQuote_append _ _ hp, hspan.1, hspan.2, hne]
  simp

theorem find?_filter_imp {α : Type} (l : List α) (p q : α → Bool)
    (h : ∀ x, p x = true → q x = true) : (l.filter q).find? p = l.find? p := by
  induction l with
  | nil => rfl
  | cons a t ih =>
    cases hpa : p a with
    | true =>
      have hqa := h a hpa
      simp [List.filter_cons, List.find?, hpa, hqa, ih]
    | false =>
      cases hqa : q a with
      | true => simp [List.filter_cons, List.find?, hpa, hqa, ih]
      | false => simp [List.filter_cons, List.find?, hpa, hqa, ih]

theorem filter_filter_imp {α : Type} (l : List α) (p q : α → Bool)
    (h : ∀ x, p x = true → q x = true) : (l.filter q).filter p = l.filter p := by
  induction l with
  | nil => rfl
  | cons a t ih =>
    cases hpa : p a with
    | true =>
      have hqa := h a hpa
      simp [List.filter_cons, hpa, hqa, ih]
    | false =>
      cases hqa : q a with
      | true => simp [List.filter_cons, hpa, hqa, ih]
      | false => simp [List.filter_cons, hpa, hqa, ih]

theorem cacheGet_set_self (c : Cache) (k : Text) (v : CacheVal) :
    cacheGet (cacheSet c k v) k = some v := by
  simp [cacheGet, cacheSet, List.find?]

theorem cacheGet_set_ne (c : Cache) (k k' : Text) (v : CacheVal)
    (h : (k == k') = false) : cacheGet (cacheSet c k' v) k = cacheGet c k := by
  have hk : k ≠ k' := by simpa using h
  have hk' : (k' == k) = false := by simpa using hk.symm
  unfold cacheGet cacheSet
  rw [List.find?, hk']
  rw [find?_filter_imp]
  intro x hx
  have : x.1 = k := by simpa using hx
  simp [this, bne, h]

theorem countKey_set_self (c : Cache) (k : Text) (v : CacheVal) :
    countKey (cacheSet c k v) k = 1 := by
  unfold countKey cacheSet
  rw [List.filter_cons_of_pos (by simp)]
  have : (c.filter (fun p => p.1 != k)).filter (fun p => p.1 == k) = [] := by
    rw [List.filter_filter]
    apply List.filter_eq_nil_iff.mpr
    intro a _
    by_cases hk : a.1 == k
    · simp [hk, bne]
    · simp [hk]
  simp [this]

theorem countKey_set_ne (c : Cache) (k k' : Text) (v : CacheVal)
    (h : (k == k') = false) : countKey (cacheSet c k' v) k = countKey c k := by
  have hk : k ≠ k' := by simpa using h
  have hk' : (k' == k) = false := by simpa using hk.symm
  unfold countKey cacheSet
  rw [List.filter_cons_of_neg (by simp [hk'])]
  rw [filter_filter_imp]
  intro x hx
  have : x.1 = k := by simpa using hx
  simp [this, bne, h]

theorem userKey_ne_addrKey (u a : Text) :
    (userWalletKey u == addressToUserKey a) = false := by
  apply beq_eq_false_iff_ne.mpr
  intro h
  rw [show userWalletKey u = 'u' :: (lit "ser_wallet:" ++ u) from rfl,
    show addressToUserKey a = 'a' :: (lit "ddress_to_user:" ++ a) from rfl] at h
  exact absurd (List.head_eq_of_cons_eq h) (by decide)

theorem stringify_not_empty (w : WalletData) : (stringifyWallet w).isEmpty = false := by
  rw [show stringifyWallet w =
    '\x7b' :: (lit "\"address\":\"" ++ w.address ++ jsonB ++ w.privateKey ++ jsonC ++
      natChars w.createdAt ++ jsonD) from rfl]
  rfl

theorem getUserWallet_after_save (c : Cache) (uid : Text) (w : WalletData)
    (ha : '"' ∉ w.address) (hp : '"' ∉ w.privateKey) :
    getUserWallet ((saveUserWallet c uid w).1) uid = some (w.address, w.privateKey) := by
  unfold saveUserWallet getUserWallet
  rw [cacheGet_set_ne _ _ _ _ (userKey_ne_addrKey uid w.address)]
  rw [cacheGet_set_self]
  simp [truthy, stringify_not_empty, parseWallet_stringify w ha hp]

theorem userHasWallet_after_save (c : Cache) (uid : Text) (w : WalletData) :
    userHasWallet ((saveUserWallet c uid w).1) uid = true := by
  unfold saveUserWallet userHasWallet
  rw [cacheGet_set_ne _ _ _ _ (userKey_ne_addrKey uid w.address)]
  rw [cacheGet_set_self]
  simp [truthy, stringify_not_empty]

theorem xChar_hex : ∀ v : Fin 16, isHexLowerCh (xChar v) = true := by decide

theorem yChar_variant : ∀ v : Fin 16, isVariantCh (yChar v) = true := by decide

theorem tokenInfo_symbol {t a s : Text}
    (h : extractTokenTransferInfo t = some (a, s)) : s = lit "AISHOP" := by
  unfold extractTokenTransferInfo at h
  rcases he : extractAmountLoop (lit "aishop") t with _ | x
  · rw [he] at h; simp at h
  · rw [he] at h
    simp at h
    exact h.2.symm

theorem lookupAISHOP : lookupToken (lit "AISHOP") =
    some ⟨lit "AISHOP", lit "AI Shop Agent", 18,
      .erc20 (lit "0x0E02649Db4d1Aa8c202aA44EA99e3606d12a21b1")⟩ := by decide

theorem extract_none_of_no_match (t : Text)
    (h : ∀ i, i < t.length → addrAt t i = false) :
    extractEthereumWalletAddress t = none := by
  induction t with
  | nil => rfl
  | cons c r ih =>
    have h0 : addrHere (c :: r) = false := h 0 (by simp)
    show extractLoopE (c :: r) = none
    rw [extractLoopE, if_neg (by simp [h0])]
    exact ih (fun i hi => h (i + 1) (by simpa using Nat.succ_lt_succ hi))

theorem extract_first_match (t : Text) (i : Nat) (h : addrAt t i = true)
    (hj : ∀ j, j < i → addrAt t j = false) :
    extractEthereumWalletAddress t = some ((t.drop i).take 42) := by
  induction t generalizing i with
  | nil =>
    exact absurd h (by simp [addrAt, addrHere])
  | cons c r ih =>
    cases i with
    | zero =>
      show extractLoopE (c :: r) = some (((c :: r).drop 0).take 42)
      rw [extractLoopE, if_pos (by simpa [addrAt] using h)]
      simp
    | succ i =>
      have h0 : addrHere (c :: r) = false := hj 0 (Nat.succ_pos i)
      show extractLoopE (c :: r) = some (((c :: r).drop (i + 1)).take 42)
      rw [extractLoopE, if_neg (by simp [h0]), List.drop_succ_cons]
      exact ih i (by simpa [addrAt] using h)
        (fun j hjlt => by simpa [addrAt] using hj (j + 1) (Nat.succ_lt_succ hjlt))

/-! ## Claims -/

/-- C9: for every sequence of random draws, the identifier generator used
to key persisted interaction records returns a 36-character UUID-like
string in 8-4-4-4-12 hexadecimal groups separated by hyphens, with the
fixed version nibble `4` at index 14 and a variant nibble in
`8, 9, a, b` at index 19. -/
theorem c9_generateId_uuid_shape (g : Nat → Fin 16) :
    uuidShape (generateId g) = true := by
  rw [generateId, show uuidTemplate =
    ['x','x','x','x','x','x','x','x','-','x','x','x','x','-','4','x','x','x','-',
     'y','x','x','x','-','x','x','x','x','x','x','x','x','x','x','x','x'] from rfl]
  simp [genIdAux, uuidShape, uuidShapeAux, uuidCharOk, xChar_hex, yChar_variant]

/-- C4 counterexample: the text
`enviar 1 MNT a 0x11111111111111111111111111111111111111111` (a
41-hexadecimal-digit run) contains no well-formed address as a complete
token, yet address extraction does not return absence: it returns the
malformed partial match consisting of the first forty hexadecimal
characters of the run.  This refutes the claim that extraction returns
absence on every input without a well-formed complete-token address. -/
theorem c4_counterexample :
    hasCompleteTokenAddress
      (lit "enviar 1 MNT a 0x11111111111111111111111111111111111111111") = false ∧
    extractEthereumWalletAddress
      (lit "enviar 1 MNT a 0x11111111111111111111111111111111111111111") =
      some (lit "0x1111111111111111111111111111111111111111") := by
  exact ⟨by decide, by decide⟩

/-- C4 (amended): on
`enviar 0.5 MNT a 0x1111111111111111111111111111111111111111` address
extraction returns exactly that 40-hex-character address and amount
extraction returns `0.5`; and extraction returns absence exactly on texts
in which no position begins a `0x`-plus-forty-hex substring — matching is
substring-based, so a longer hexadecimal run still yields its first forty
characters rather than absence. -/
theorem c4_parse_amended :
    (extractEthereumWalletAddress
        (lit "enviar 0.5 MNT a 0x1111111111111111111111111111111111111111") =
        some (lit "0x1111111111111111111111111111111111111111") ∧
      extractAmount
        (lit "enviar 0.5 MNT a 0x1111111111111111111111111111111111111111") =
        some (lit "0.5")) ∧
    ∀ t : Text, (∀ i, i < t.length → addrAt t i = false) →
      extractEthereumWalletAddress t = none :=
  ⟨⟨by decide, by decide⟩, extract_none_of_no_match⟩

/-- C4 witness: the amended universal part applied to a concrete text with
no address-shaped substring. -/
theorem c4_parse_amended_witness :
    extractEthereumWalletAddress (lit "hola, quiero ver mi balance") = none :=
  c4_parse_amended.2 (lit "hola, quiero ver mi balance") (by decide)

/-- C10: when the inbound text contains more than one substring matching
the EVM-address pattern, address extraction returns the leftmost match;
consequently any transaction submitted by either transfer flow is directed
to the extracted (first) address, and the balance query flow's
explicit-address report targets that first address. -/
theorem c10_first_address :
    (∀ (t : Text) (i : Nat), addrAt t i = true → (∀ j, j < i → addrAt t j = false) →
      extractEthereumWalletAddress t = some ((t.drop i).take 42)) ∧
    (∀ (env : TransferEnv), ∀ b ∈ (transferMNT env).broadcasts,
      some b.toAddr = extractEthereumWalletAddress env.text) ∧
    (∀ (env : TransferEnv), ∀ b ∈ (transferERC20 env).broadcasts,
      some b.toAddr = extractEthereumWalletAddress env.text) ∧
    (∀ (env : BalanceEnv) (a : Text), extractEthereumWalletAddress env.text = some a →
      (checkBalanceFlow env).ret = true →
      ∃ m s, (checkBalanceFlow env).replies = [joinLines (balanceLinesAddr a m s)]) := by
  refine ⟨extract_first_match, ?_, ?_, ?_⟩
  · intro env b hb
    obtain ⟨uopt, text, cache, derv, bal, send, rcpt⟩ := env
    rcases uopt with _ | uid
    · simp [transferMNT] at hb
    by_cases hw : userHasWallet cache uid
    case neg => simp [transferMNT, hw] at hb
    rcases hp : initUserWalletProvider cache uid derv with _ | prov
    · simp [transferMNT, hw, hp] at hb
    rcases hx : extractEthereumWalletAddress text with _ | toA
    · simp [transferMNT, hw, hp, hx] at hb
    rcases hy : extractAmount text with _ | amt
    · simp [transferMNT, hw, hp, hx, hy] at hb
    rcases bal with e | n
    · simp [transferMNT, hw, hp, hx, hy] at hb
    by_cases hlt : n < parseEther amt
    case pos => simp [transferMNT, hw, hp, hx, hy, hlt] at hb
    rcases send with e | hsh
    · simp [transferMNT, hw, hp, hx, hy, hlt] at hb
      subst hb
      simp [hx]
    rcases rcpt with e | r
    · simp [transferMNT, hw, hp, hx, hy, hlt] at hb
      subst hb
      simp [hx]
    · simp [transferMNT, hw, hp, hx, hy, hlt] at hb
      subst hb
      simp [hx]
  · intro env b hb
    obtain ⟨uopt, text, cache, derv, bal, send, rcpt⟩ := env
    rcases uopt with _ | uid
    · simp [transferERC20] at hb
    by_cases hw : userHasWallet cache uid
    case neg => simp [transferERC20, hw] at hb
    rcases hp : initUserWalletProvider cache uid derv with _ | prov
    · simp [transferERC20, hw, hp] at hb
    rcases hx : extractEthereumWalletAddress text with _ | toA
    · simp [transferERC20, hw, hp, hx] at hb
    rcases ht : extractTokenTransferInfo text with _ | ⟨amt, sym⟩
    · simp [transferERC20, hw, hp, hx, ht] at hb
    have hs := tokenInfo_symbol ht
    subst hs
    rcases bal with e | n
    · rcases send with e2 | hsh
      · simp [transferERC20, hw, hp, hx, ht, lookupAISHOP] at hb
        subst hb
        simp [hx]
      rcases rcpt with e3 | r
      · simp [transferERC20, hw, hp, hx, ht, lookupAISHOP] at hb
        subst hb
        simp [hx]
      · simp [transferERC20, hw, hp, hx, ht, lookupAISHOP] at hb
        subst hb
        simp [hx]
    by_cases hlt : n < parseUnits amt 18
    case pos => simp [transferERC20, hw, hp, hx, ht, lookupAISHOP, hlt] at hb
    rcases send with e2 | hsh
    · simp [transferERC20, hw, hp, hx, ht, lookupAISHOP, hlt] at hb
      subst hb
      simp [hx]
    rcases rcpt with e3 | r
    · simp [transferERC20, hw, hp, hx, ht, lookupAISHOP, hlt] at hb
      subst hb
      simp [hx]
    · simp [transferERC20, hw, hp, hx, ht, lookupAISHOP, hlt] at hb
      subst hb
      simp [hx]
  · intro env a ha hret
    obtain ⟨uopt, text, cache, derv, sk, nat, dec, tok⟩ := env
    rcases uopt with _ | uid
    · simp [checkBalanceFlow] at hret
    rcases sk with _ | skv
    · simp only [checkBalanceFlow, ha] at hret
      simp at hret
    rcases nat with e | n
    · simp only [checkBalanceFlow, ha] at hret
      simp at hret
    · simp only [checkBalanceFlow, ha]
      exact ⟨_, _, rfl⟩

/-- C10 witness: the leftmost-match component applied to a concrete text
holding two addresses, and the balance-flow component applied to a
concrete successful explicit-address invocation. -/
theorem c10_first_address_witness :
    extractEthereumWalletAddress
      (lit "de 0x1111111111111111111111111111111111111111 a 0x2222222222222222222222222222222222222222") =
      some (lit "0x1111111111111111111111111111111111111111") ∧
    ∃ m s,
      (checkBalanceFlow
        ⟨some uid1, lit "balance de 0x3333333333333333333333333333333333333333", [],
         derive1, some pk1, .ok 1000000000000000000, .ok 18, .ok 0⟩).replies =
      [joinLines (balanceLinesAddr (lit "0x3333333333333333333333333333333333333333") m s)] := by
  constructor
  · have := c10_first_address.1
      (lit "de 0x1111111111111111111111111111111111111111 a 0x2222222222222222222222222222222222222222")
      3 (by decide) (by decide)
    simpa using this
  · exact c10_first_address.2.2.2 _ _ (by decide) (by decide)

/-- C1: in both transfer flows, whenever the preflight balance fetch
succeeds and returns strictly less than the requested amount, the
invocation terminates with the insufficient-funds reply stating the held
and requested figures, no transaction is broadcast (hence no transaction
hash), and no interaction record — in particular none with a transaction
payload — is persisted. -/
theorem c1_insufficient_terminal :
    (∀ (env : TransferEnv) (uid : Text) (prov : Provider) (toA amountStr : Text) (bal : Nat),
      env.userId = some uid →
      userHasWallet env.cache uid = true →
      initUserWalletProvider env.cache uid env.derive = some prov →
      extractEthereumWalletAddress env.text = some toA →
      extractAmount env.text = some amountStr →
      env.balanceRes = Except.ok bal →
      bal < parseEther amountStr →
      transferMNT env =
        ⟨[insufficientMNTText (formatEther bal) amountStr], [], [], false⟩) ∧
    (∀ (env : TransferEnv) (uid : Text) (prov : Provider) (toA amountStr sym : Text) (bal : Nat),
      env.userId = some uid →
      userHasWallet env.cache uid = true →
      initUserWalletProvider env.cache uid env.derive = some prov →
      extractEthereumWalletAddress env.text = some toA →
      extractTokenTransferInfo env.text = some (amountStr, sym) →
      env.balanceRes = Except.ok bal →
      bal < parseUnits amountStr 18 →
      transferERC20 env =
        ⟨[insufficientTokenText (formatUnits bal 18) amountStr (lit "AISHOP")],
         [], [], false⟩) := by
  constructor
  · intro env uid prov toA amountStr bal h1 h2 h3 h4 h5 h6 h7
    simp [transferMNT, h1, h2, h3, h4, h5, h6, h7]
  · intro env uid prov toA amountStr sym bal h1 h2 h3 h4 h5 h6 h7
    have hs := tokenInfo_symbol h5
    subst hs
    simp [transferERC20, h1, h2, h3, h4, h5, h6, h7, lookupAISHOP]

/-- C1 witness: both parts applied to concrete invocations whose fetched
balance (0 wei MNT, 7 base units of AISHOP) is below the requested 5. -/
theorem c1_insufficient_terminal_witness :
    transferMNT
      ⟨some uid1, lit "enviar 5 MNT a 0x2222222222222222222222222222222222222222",
       cache1, derive1, Except.ok 0, Except.ok (lit "0xh"), Except.ok ⟨true, 1⟩⟩ =
      ⟨[insufficientMNTText (formatEther 0) (lit "5")], [], [], false⟩ ∧
    transferERC20
      ⟨some uid1, lit "enviar 5 AISHOP a 0x2222222222222222222222222222222222222222",
       cache1, derive1, Except.ok 7, Except.ok (lit "0xh"), Except.ok ⟨true, 1⟩⟩ =
      ⟨[insufficientTokenText (formatUnits 7 18) (lit "5") (lit "AISHOP")], [], [], false⟩ :=
  ⟨c1_insufficient_terminal.1 _ uid1 ⟨addr1⟩
      (lit "0x2222222222222222222222222222222222222222") (lit "5") 0
      rfl (by decide) (by decide) (by decide) (by decide) rfl (by decide),
   c1_insufficient_terminal.2 _ uid1 ⟨addr1⟩
      (lit "0x2222222222222222222222222222222222222222") (lit "5") (lit "AISHOP") 7
      rfl (by decide) (by decide) (by decide) (by decide) rfl (by decide)⟩

/-- C2 counterexample: a token-transfer invocation whose preflight
`balanceOf` fetch fails with an RpcError nevertheless proceeds: a
transaction is broadcast, a hash is produced, the invocation succeeds, and
a transaction interaction record is persisted.  This refutes the claim
that a failed preflight balance fetch is terminal for the ERC-20
variant. -/
theorem c2_counterexample :
    c2Env.balanceRes = Except.error (lit "rpc timeout") ∧
    (transferERC20 c2Env).broadcasts =
      [⟨lit "0x2222222222222222222222222222222222222222", some (lit "0xhash1")⟩] ∧
    (transferERC20 c2Env).ret = true ∧
    (transferERC20 c2Env).memories ≠ [] := by
  exact ⟨rfl, by decide, by decide, by decide⟩

/-- C2 (amended): a preflight balance-fetch failure is terminal for the
native-MNT variant — the invocation ends with an error reply, no
broadcast, and no persisted record — but in the ERC-20 variant the
failure is caught, logged, and ignored, and the flow proceeds to
broadcast as if the check had passed. -/
theorem c2_preflight_failure_amended :
    (∀ (env : TransferEnv) (uid : Text) (prov : Provider) (toA amountStr e : Text),
      env.userId = some uid →
      userHasWallet env.cache uid = true →
      initUserWalletProvider env.cache uid env.derive = some prov →
      extractEthereumWalletAddress env.text = some toA →
      extractAmount env.text = some amountStr →
      env.balanceRes = Except.error e →
      transferMNT env = ⟨[transferMNTErrorText e], [], [], false⟩) ∧
    (∀ (env : TransferEnv) (uid : Text) (prov : Provider) (toA amountStr sym e : Text),
      env.userId = some uid →
      userHasWallet env.cache uid = true →
      initUserWalletProvider env.cache uid env.derive = some prov →
      extractEthereumWalletAddress env.text = some toA →
      extractTokenTransferInfo env.text = some (amountStr, sym) →
      env.balanceRes = Except.error e →
      (transferERC20 env).broadcasts ≠ []) := by
  constructor
  · intro env uid prov toA amountStr e h1 h2 h3 h4 h5 h6
    simp [transferMNT, h1, h2, h3, h4, h5, h6]
  · intro env uid prov toA amountStr sym e h1 h2 h3 h4 h5 h6
    have hs := tokenInfo_symbol h5
    subst hs
    rcases hsend : env.sendRes with e2 | hsh <;>
      rcases hrc : env.receiptRes with e3 | r <;>
      simp [transferERC20, h1, h2, h3, h4, h5, h6, lookupAISHOP, hsend, hrc]

/-- C2 witness: the native part applied to a concrete invocation whose
balance fetch fails, and the token part applied to `c2Env`. -/
theorem c2_preflight_failure_amended_witness :
    transferMNT
      ⟨some uid1, lit "enviar 5 MNT a 0x2222222222222222222222222222222222222222",
       cache1, derive1, Except.error (lit "rpc timeout"), Except.ok (lit "0xh"),
       Except.ok ⟨true, 1⟩⟩ =
      ⟨[transferMNTErrorText (lit "rpc timeout")], [], [], false⟩ ∧
    (transferERC20 c2Env).broadcasts ≠ [] :=
  ⟨c2_preflight_failure_amended.1 _ uid1 ⟨addr1⟩
      (lit "0x2222222222222222222222222222222222222222") (lit "5") (lit "rpc timeout")
      rfl (by decide) (by decide) (by decide) (by decide) rfl,
   c2_preflight_failure_amended.2 c2Env uid1 ⟨addr1⟩
      (lit "0x2222222222222222222222222222222222222222") (lit "5") (lit "AISHOP")
      (lit "rpc timeout")
      rfl (by decide) (by decide) (by decide) (by decide) rfl⟩

/-- C5: wallet provisioning is idempotent — a first invocation for a
fresh user replies with the freshly derived address and leaves exactly one
forward wallet record; a second invocation (with a different freshly
generated key pair available) replies with the same existing address,
writes nothing to the store, and creates no interaction record. -/
theorem c5_provisioning_idempotent (c0 : Cache) (u a1 p1 a2 p2 : Text) (t1 t2 : Nat)
    (hfresh : userHasWallet c0 u = false)
    (ha : '"' ∉ a1) (hp : '"' ∉ p1) :
    (createWalletFlow ⟨some u, c0, a1, p1, t1⟩).replies =
      [creatingWalletText, walletCreatedText a1] ∧
    (createWalletFlow ⟨some u, (createWalletFlow ⟨some u, c0, a1, p1, t1⟩).cache,
        a2, p2, t2⟩).replies = [alreadyHaveWalletText a1] ∧
    (createWalletFlow ⟨some u, (createWalletFlow ⟨some u, c0, a1, p1, t1⟩).cache,
        a2, p2, t2⟩).cache = (createWalletFlow ⟨some u, c0, a1, p1, t1⟩).cache ∧
    (createWalletFlow ⟨some u, (createWalletFlow ⟨some u, c0, a1, p1, t1⟩).cache,
        a2, p2, t2⟩).memories = [] ∧
    countKey (createWalletFlow ⟨some u, c0, a1, p1, t1⟩).cache (userWalletKey u) = 1 := by
  have hr1 : createWalletFlow ⟨some u, c0, a1, p1, t1⟩ =
      ⟨[creatingWalletText, walletCreatedText a1],
       [⟨lit "CREATE_WALLET", .walletCreated a1 t1⟩],
       (saveUserWallet c0 u ⟨a1, p1, t1⟩).1, true⟩ := by
    simp [createWalletFlow, hfresh, saveUserWallet]
  have hw2 := userHasWallet_after_save c0 u ⟨a1, p1, t1⟩
  have hg2 := getUserWallet_after_save c0 u ⟨a1, p1, t1⟩ ha hp
  have hr2 : createWalletFlow ⟨some u, (saveUserWallet c0 u ⟨a1, p1, t1⟩).1, a2, p2, t2⟩ =
      ⟨[alreadyHaveWalletText a1], [], (saveUserWallet c0 u ⟨a1, p1, t1⟩).1, true⟩ := by
    simp [createWalletFlow, hw2, hg2]
  rw [hr1]
  refine ⟨rfl, ?_, ?_, ?_, ?_⟩
  · rw [hr2]
  · rw [hr2]
  · rw [hr2]
  · show countKey (saveUserWallet c0 u ⟨a1, p1, t1⟩).1 (userWalletKey u) = 1
    unfold saveUserWallet
    rw [countKey_set_ne _ _ _ _ (userKey_ne_addrKey u a1)]
    exact countKey_set_self _ _ _

/-- C5 witness: the idempotency theorem applied to a fresh user on an
empty cache, with two distinct freshly generated key pairs. -/
theorem c5_provisioning_idempotent_witness :
    (createWalletFlow ⟨some uid1, [], addr1, pk1, 5⟩).replies =
      [creatingWalletText, walletCreatedText addr1] ∧
    (createWalletFlow ⟨some uid1, (createWalletFlow ⟨some uid1, [], addr1, pk1, 5⟩).cache,
        lit "0xB0B0", lit "0xpk2", 9⟩).replies = [alreadyHaveWalletText addr1] ∧
    (createWalletFlow ⟨some uid1, (createWalletFlow ⟨some uid1, [], addr1, pk1, 5⟩).cache,
        lit "0xB0B0", lit "0xpk2", 9⟩).cache =
      (createWalletFlow ⟨some uid1, [], addr1, pk1, 5⟩).cache ∧
    (createWalletFlow ⟨some uid1, (createWalletFlow ⟨some uid1, [], addr1, pk1, 5⟩).cache,
        lit "0xB0B0", lit "0xpk2", 9⟩).memories = [] ∧
    countKey (createWalletFlow ⟨some uid1, [], addr1, pk1, 5⟩).cache (userWalletKey uid1) = 1 :=
  c5_provisioning_idempotent [] uid1 addr1 pk1 (lit "0xB0B0") (lit "0xpk2") 5 9
    rfl (by decide) (by decide)

/-- C3 counterexample: after `saveUserWallet` stores the wallet of `uid1`
under its mixed-case derived address, `getUserIdByAddress` queried with
the lowercase form of that address returns absence (the lookup performs no
case normalization), while the exact stored casing resolves to `uid1`.
This refutes the claim that the lookup lowercases its argument and that
the round-trip succeeds regardless of presented letter-casing. -/
theorem c3_counterexample :
    getUserIdByAddress cache1 (toLowerText addr1) = none ∧
    toLowerText addr1 ≠ addr1 ∧
    getUserIdByAddress cache1 addr1 = some uid1 := by
  exact ⟨by decide, by decide, by decide⟩

/-- C3 (amended): `getUserIdByAddress` looks the address up exactly as
given, with no case normalization — the reverse index is keyed by the
address casing produced at creation — so for every user whose wallet was
saved with derived address `a`, the round-trip succeeds when `a` is
presented in exactly that casing. -/
theorem c3_reverse_lookup_amended (c : Cache) (uid : Text) (w : WalletData) :
    getUserIdByAddress ((saveUserWallet c uid w).1) w.address = some uid := by
  unfold saveUserWallet getUserIdByAddress
  rw [cacheGet_set_self]

/-- C8: `getUserWallet` returns the stored record or `null`: an absent
cache value yields `null`, and a record stored as a serialized JSON string
decodes to the same `(address, privateKey)` result as the same record
stored as raw structured data. -/
theorem c8_getWallet_decodes_both :
    (∀ (c : Cache) (uid : Text), cacheGet c (userWalletKey uid) = none →
      getUserWallet c uid = none) ∧
    (∀ (w : WalletData) (c : Cache) (uid : Text), '"' ∉ w.address → '"' ∉ w.privateKey →
      getUserWallet (cacheSet c (userWalletKey uid) (.str (stringifyWallet w))) uid =
        some (w.address, w.privateKey) ∧
      getUserWallet (cacheSet c (userWalletKey uid) (.wallet w)) uid =
        some (w.address, w.privateKey)) := by
  constructor
  · intro c uid h
    unfold getUserWallet
    rw [h]
  · intro w c uid ha hp
    constructor
    · unfold getUserWallet
      rw [cacheGet_set_self]
      simp [truthy, stringify_not_empty, parseWallet_stringify w ha hp]
    · unfold getUserWallet
      rw [cacheGet_set_self]
      simp [truthy]

/-- C8 witness: both storage representations of `wallet1` decode to the
same record, and an absent value yields `null`. -/
theorem c8_getWallet_witness :
    getUserWallet (cacheSet [] (userWalletKey uid1) (.str (stringifyWallet wallet1))) uid1 =
      some (wallet1.address, wallet1.privateKey) ∧
    getUserWallet (cacheSet [] (userWalletKey uid1) (.wallet wallet1)) uid1 =
      some (wallet1.address, wallet1.privateKey) ∧
    getUserWallet [] uid1 = none :=
  ⟨(c8_getWallet_decodes_both.2 wallet1 [] uid1 (by decide) (by decide)).1,
   (c8_getWallet_decodes_both.2 wallet1 [] uid1 (by decide) (by decide)).2,
   c8_getWallet_decodes_both.1 [] uid1 rfl⟩

/-- C6: in the balance query flow (own-wallet path) and in the wallet
provider, a failure while fetching the contract-backed AISHOP balance
degrades only that token's displayed value to the explicit error marker
while the rest of the report (and its interaction record) is still
produced, whereas a failure while fetching the native MNT balance aborts
the whole flow with a failure reply. -/
theorem c6_error_asymmetry :
    (∀ (env : BalanceEnv) (uid : Text) (prov : Provider) (e : Text),
      env.userId = some uid →
      extractEthereumWalletAddress env.text = none →
      userHasWallet env.cache uid = true →
      initUserWalletProvider env.cache uid env.derive = some prov →
      env.nativeRes = Except.error e →
      checkBalanceFlow env = ⟨[checkBalanceErrorText e], [], [], false⟩) ∧
    (∀ (env : BalanceEnv) (uid : Text) (prov : Provider) (n : Nat),
      env.userId = some uid →
      extractEthereumWalletAddress env.text = none →
      userHasWallet env.cache uid = true →
      initUserWalletProvider env.cache uid env.derive = some prov →
      env.nativeRes = Except.ok n →
      (exOk env.tokenDecRes = false ∨ exOk env.tokenBalRes = false) →
      checkBalanceFlow env =
        ⟨[joinLines (balanceLinesOwn prov.address (formatEther n) aishopErrMarkText)],
         [⟨lit "CHECK_BALANCE",
           .balanceReport (formatEther n) aishopErrMarkText prov.address⟩],
         [], true⟩) ∧
    (∀ (env : BalanceEnv) (uid : Text) (prov : Provider) (e : Text),
      env.userId = some uid →
      extractEthereumWalletAddress env.text = none →
      userHasWallet env.cache uid = true →
      initUserWalletProvider env.cache uid env.derive = some prov →
      env.nativeRes = Except.error e →
      walletProviderGet env = provOwnErrorText e) ∧
    (∀ (env : BalanceEnv) (uid : Text) (prov : Provider) (n : Nat),
      env.userId = some uid →
      extractEthereumWalletAddress env.text = none →
      userHasWallet env.cache uid = true →
      initUserWalletProvider env.cache uid env.derive = some prov →
      env.nativeRes = Except.ok n →
      (exOk env.tokenDecRes = false ∨ exOk env.tokenBalRes = false) →
      walletProviderGet env =
        joinLines (provLinesOwn prov.address (formatEther n) provErrMarkText)) := by
  refine ⟨?_, ?_, ?_, ?_⟩
  · intro env uid prov e h1 h2 h3 h4 h5
    simp [checkBalanceFlow, h1, h2, h3, h4, h5]
  · intro env uid prov n h1 h2 h3 h4 h5 h6
    rcases hdec : env.tokenDecRes with e1 | d <;>
      rcases htok : env.tokenBalRes with e2 | tb <;>
      simp [checkBalanceFlow, h1, h2, h3, h4, h5, hdec, htok]
    rw [hdec, htok] at h6
    simp [exOk] at h6
  · intro env uid prov e h1 h2 h3 h4 h5
    simp [walletProviderGet, h1, h2, h3, h4, h5]
  · intro env uid prov n h1 h2 h3 h4 h5 h6
    rcases hdec : env.tokenDecRes with e1 | d <;>
      rcases htok : env.tokenBalRes with e2 | tb <;>
      simp [walletProviderGet, h1, h2, h3, h4, h5, hdec, htok]
    rw [hdec, htok] at h6
    simp [exOk] at h6

/-- C6 witness: the four parts applied to concrete own-wallet invocations
with a failing native fetch and with a failing AISHOP fetch. -/
theorem c6_error_asymmetry_witness :
    checkBalanceFlow
      ⟨some uid1, lit "ver mi balance", cache1, derive1, none,
       Except.error (lit "rpc down"), Except.ok 18, Except.ok 7⟩ =
      ⟨[checkBalanceErrorText (lit "rpc down")], [], [], false⟩ ∧
    checkBalanceFlow
      ⟨some uid1, lit "ver mi balance", cache1, derive1, none,
       Except.ok 3, Except.ok 18, Except.error (lit "token rpc down")⟩ =
      ⟨[joinLines (balanceLinesOwn addr1 (formatEther 3) aishopErrMarkText)],
       [⟨lit "CHECK_BALANCE", .balanceReport (formatEther 3) aishopErrMarkText addr1⟩],
       [], true⟩ ∧
    walletProviderGet
      ⟨some uid1, lit "ver mi balance", cache1, derive1, none,
       Except.error (lit "rpc down"), Except.ok 18, Except.ok 7⟩ =
      provOwnErrorText (lit "rpc down") ∧
    walletProviderGet
      ⟨some uid1, lit "ver mi balance", cache1, derive1, none,
       Except.ok 3, Except.ok 18, Except.error (lit "token rpc down")⟩ =
      joinLines (provLinesOwn addr1 (formatEther 3) provErrMarkText) :=
  ⟨c6_error_asymmetry.1 _ uid1 ⟨addr1⟩ (lit "rpc down")
      rfl (by decide) (by decide) (by decide) rfl,
   c6_error_asymmetry.2.1 _ uid1 ⟨addr1⟩ 3
      rfl (by decide) (by decide) (by decide) rfl (Or.inr (by decide)),
   c6_error_asymmetry.2.2.1 _ uid1 ⟨addr1⟩ (lit "rpc down")
      rfl (by decide) (by decide) (by decide) rfl,
   c6_error_asymmetry.2.2.2 _ uid1 ⟨addr1⟩ 3
      rfl (by decide) (by decide) (by decide) rfl (Or.inr (by decide))⟩

theorem mntBeforeAishop_linesOwn (a m s : Text) :
    mntBeforeAishop (balanceLinesOwn a m s) (lit "MNT: ") (lit "AISHOP: ") := by
  refine ⟨3, ⟨m, rfl⟩, ⟨4, s, rfl⟩, ?_⟩
  intro j t hj
  rcases j with _|_|_|_|_|_|_|j
  · simp only [balanceLinesOwn, List.get?, Option.some.injEq] at hj
    rw [show (lit "AISHOP: " ++ t : Text) = 'A' :: (lit "ISHOP: " ++ t) from rfl,
      show (lit "📊 Tus Balances en Mantle Sepolia Testnet:" : Text) =
        '📊' :: lit " Tus Balances en Mantle Sepolia Testnet:" from rfl] at hj
    simp at hj
  · simp only [balanceLinesOwn, List.get?, Option.some.injEq] at hj
    rw [show (lit "AISHOP: " ++ t : Text) = 'A' :: (lit "ISHOP: " ++ t) from rfl,
      show (lit "" : Text) = [] from rfl] at hj
    simp at hj
  · simp only [balanceLinesOwn, List.get?, Option.some.injEq] at hj
    rw [show (lit "AISHOP: " ++ t : Text) = 'A' :: (lit "ISHOP: " ++ t) from rfl,
      show (lit "Dirección: " ++ a : Text) = 'D' :: (lit "irección: " ++ a) from rfl] at hj
    simp at hj
  · simp only [balanceLinesOwn, List.get?, Option.some.injEq] at hj
    rw [show (lit "AISHOP: " ++ t : Text) = 'A' :: (lit "ISHOP: " ++ t) from rfl,
      show (lit "MNT: " ++ m : Text) = 'M' :: (lit "NT: " ++ m) from rfl] at hj
    simp at hj
  · omega
  · simp only [balanceLinesOwn, List.get?, Option.some.injEq] at hj
    rw [show (lit "AISHOP: " ++ t : Text) = 'A' :: (lit "ISHOP: " ++ t) from rfl,
      show (lit "" : Text) = [] from rfl] at hj
    simp at hj
  · simp only [balanceLinesOwn, List.get?, Option.some.injEq] at hj
    rw [show (lit "AISHOP: " ++ t : Text) = 'A' :: (lit "ISHOP: " ++ t) from rfl,
      show (lit "Ver en Explorer: https://sepolia.mantlescan.xyz/address/" ++ a : Text) =
        'V' :: (lit "er en Explorer: https://sepolia.mantlescan.xyz/address/" ++ a) from rfl] at hj
    simp at hj
  · simp only [balanceLinesOwn, List.get?] at hj
    exact Option.noConfusion hj

theorem mntBeforeAishop_linesAddr (a m s : Text) :
    mntBeforeAishop (balanceLinesAddr a m s) (lit "MNT: ") (lit "AISHOP: ") := by
  refine ⟨1, ⟨m, rfl⟩, ⟨2, s, rfl⟩, ?_⟩
  intro j t hj
  rcases j with _|_|_|_|_|j
  · simp only [balanceLinesAddr, List.get?, Option.some.injEq] at hj
    rw [show (lit "AISHOP: " ++ t : Text) = 'A' :: (lit "ISHOP: " ++ t) from rfl,
      show (lit "Balances en Mantle Sepolia Testnet para " ++ a ++ lit ":" : Text) =
        'B' :: (lit "alances en Mantle Sepolia Testnet para " ++ a ++ lit ":") from rfl] at hj
    simp at hj
  · simp only [balanceLinesAddr, List.get?, Option.some.injEq] at hj
    rw [show (lit "AISHOP: " ++ t : Text) = 'A' :: (lit "ISHOP: " ++ t) from rfl,
      show (lit "MNT: " ++ m : Text) = 'M' :: (lit "NT: " ++ m) from rfl] at hj
    simp at hj
  · omega
  · simp only [balanceLinesAddr, List.get?, Option.some.injEq] at hj
    rw [show (lit "AISHOP: " ++ t : Text) = 'A' :: (lit "ISHOP: " ++ t) from rfl,
      show (lit "" : Text) = [] from rfl] at hj
    simp at hj
  · simp only [balanceLinesAddr, List.get?, Option.some.injEq] at hj
    rw [show (lit "AISHOP: " ++ t : Text) = 'A' :: (lit "ISHOP: " ++ t) from rfl,
      show (lit "Ver en Explorer: https://sepolia.mantlescan.xyz/address/" ++ a : Text) =
        'V' :: (lit "er en Explorer: https://sepolia.mantlescan.xyz/address/" ++ a) from rfl] at hj
    simp at hj
  · simp only [balanceLinesAddr, List.get?] at hj
    exact Option.noConfusion hj

theorem mntBeforeAishop_provAddr (a m s : Text) :
    mntBeforeAishop (provLinesAddr a m s) (lit "Balance MNT: ") (lit "Balance AISHOP: ") := by
  refine ⟨2, ⟨m ++ lit " MNT", rfl⟩, ⟨3, s ++ lit " AISHOP", rfl⟩, ?_⟩
  intro j t hj
  rcases j with _|_|_|_|_|_|j
  · simp only [provLinesAddr, List.get?, Option.some.injEq] at hj
    rw [show (lit "Balance AISHOP: " ++ t : Text) =
        'B':: 'a':: 'l':: 'a':: 'n':: 'c':: 'e':: ' ':: 'A' :: (lit "ISHOP: " ++ t) from rfl,
      show (lit "Información de Dirección en Mantle Sepolia:" : Text) =
        'I' :: lit "nformación de Dirección en Mantle Sepolia:" from rfl] at hj
    simp at hj
  · simp only [provLinesAddr, List.get?, Option.some.injEq] at hj
    rw [show (lit "Balance AISHOP: " ++ t : Text) =
        'B':: 'a':: 'l':: 'a':: 'n':: 'c':: 'e':: ' ':: 'A' :: (lit "ISHOP: " ++ t) from rfl,
      show (lit "Dirección: " ++ a : Text) = 'D' :: (lit "irección: " ++ a) from rfl] at hj
    simp at hj
  · simp only [provLinesAddr, List.get?, Option.some.injEq] at hj
    rw [show (lit "Balance AISHOP: " ++ t : Text) =
        'B':: 'a':: 'l':: 'a':: 'n':: 'c':: 'e':: ' ':: 'A' :: (lit "ISHOP: " ++ t) from rfl,
      show (lit "Balance MNT: " ++ m ++ lit " MNT" : Text) =
        'B':: 'a':: 'l':: 'a':: 'n':: 'c':: 'e':: ' ':: 'M' :: (lit "NT: " ++ m ++ lit " MNT") from rfl] at hj
    simp at hj
  · omega
  · simp only [provLinesAddr, List.get?, Option.some.injEq] at hj
    rw [show (lit "Balance AISHOP: " ++ t : Text) =
        'B':: 'a':: 'l':: 'a':: 'n':: 'c':: 'e':: ' ':: 'A' :: (lit "ISHOP: " ++ t) from rfl,
      show (lit "" : Text) = [] from rfl] at hj
    simp at hj
  · simp only [provLinesAddr, List.get?, Option.some.injEq] at hj
    rw [show (lit "Balance AISHOP: " ++ t : Text) =
        'B':: 'a':: 'l':: 'a':: 'n':: 'c':: 'e':: ' ':: 'A' :: (lit "ISHOP: " ++ t) from rfl,
      show (lit "Ver en Explorador: https://sepolia.mantlescan.xyz/address/" ++ a : Text) =
        'V' :: (lit "er en Explorador: https://sepolia.mantlescan.xyz/address/" ++ a) from rfl] at hj
    simp at hj
  · simp only [provLinesAddr, List.get?] at hj
    exact Option.noConfusion hj

theorem mntBeforeAishop_provOwn (a m s : Text) :
    mntBeforeAishop (provLinesOwn a m s) (lit "Balance MNT: ") (lit "Balance AISHOP: ") := by
  refine ⟨2, ⟨m ++ lit " MNT", rfl⟩, ⟨3, s ++ lit " AISHOP", rfl⟩, ?_⟩
  intro j t hj
  rcases j with _|_|_|_|_|_|_|j
  · simp only [provLinesOwn, List.get?, Option.some.injEq] at hj
    rw [show (lit "Balance AISHOP: " ++ t : Text) =
        'B':: 'a':: 'l':: 'a':: 'n':: 'c':: 'e':: ' ':: 'A' :: (lit "ISHOP: " ++ t) from rfl,
      show (lit "Información de Tu Wallet en Mantle Sepolia:" : Text) =
        'I' :: lit "nformación de Tu Wallet en Mantle Sepolia:" from rfl] at hj
    simp at hj
  · simp only [provLinesOwn, List.get?, Option.some.injEq] at hj
    rw [show (lit "Balance AISHOP: " ++ t : Text) =
        'B':: 'a':: 'l':: 'a':: 'n':: 'c':: 'e':: ' ':: 'A' :: (lit "ISHOP: " ++ t) from rfl,
      show (lit "Dirección: " ++ a : Text) = 'D' :: (lit "irección: " ++ a) from rfl] at hj
    simp at hj
  · simp only [provLinesOwn, List.get?, Option.some.injEq] at hj
    rw [show (lit "Balance AISHOP: " ++ t : Text) =
        'B':: 'a':: 'l':: 'a':: 'n':: 'c':: 'e':: ' ':: 'A' :: (lit "ISHOP: " ++ t) from rfl,
      show (lit "Balance MNT: " ++ m ++ lit " MNT" : Text) =
        'B':: 'a':: 'l':: 'a':: 'n':: 'c':: 'e':: ' ':: 'M' :: (lit "NT: " ++ m ++ lit " MNT") from rfl] at hj
    simp at hj
  · omega
  · simp only [provLinesOwn, List.get?, Option.some.injEq] at hj
    rw [show (lit "Balance AISHOP: " ++ t : Text) =
        'B':: 'a':: 'l':: 'a':: 'n':: 'c':: 'e':: ' ':: 'A' :: (lit "ISHOP: " ++ t) from rfl,
      show (lit "" : Text) = [] from rfl] at hj
    simp at hj
  · simp only [provLinesOwn, List.get?, Option.some.injEq] at hj
    rw [show (lit "Balance AISHOP: " ++ t : Text) =
        'B':: 'a':: 'l':: 'a':: 'n':: 'c':: 'e':: ' ':: 'A' :: (lit "ISHOP: " ++ t) from rfl,
      show (lit "Tu wallet está correctamente configurada y lista para transacciones." : Text) =
        'T' :: lit "u wallet está correctamente configurada y lista para transacciones." from rfl] at hj
    simp at hj
  · simp only [provLinesOwn, List.get?, Option.some.injEq] at hj
    rw [show (lit "Balance AISHOP: " ++ t : Text) =
        'B':: 'a':: 'l':: 'a':: 'n':: 'c':: 'e':: ' ':: 'A' :: (lit "ISHOP: " ++ t) from rfl,
      show (lit "Ver en Explorador: https://sepolia.mantlescan.xyz/address/" ++ a : Text) =
        'V' :: (lit "er en Explorador: https://sepolia.mantlescan.xyz/address/" ++ a) from rfl] at hj
    simp at hj
  · simp only [provLinesOwn, List.get?] at hj
    exact Option.noConfusion hj

/-- C7: every successfully produced balance report lists the native MNT
line before every contract-backed token line — in the balance-check
action's reports (both paths) and in the wallet provider's report
shapes — and the contract-backed tokens of the registry are, in
definition order, exactly AISHOP; the report shape is a pure function of
the invocation environment, so the ordering is deterministic. -/
theorem c7_report_order :
    (∀ env : BalanceEnv, (checkBalanceFlow env).ret = true →
      ∃ L, (checkBalanceFlow env).replies = [joinLines L] ∧
        mntBeforeAishop L (lit "MNT: ") (lit "AISHOP: ")) ∧
    (∀ a m s, mntBeforeAishop (provLinesAddr a m s)
      (lit "Balance MNT: ") (lit "Balance AISHOP: ")) ∧
    (∀ a m s, mntBeforeAishop (provLinesOwn a m s)
      (lit "Balance MNT: ") (lit "Balance AISHOP: ")) ∧
    getERC20Tokens.map TokenConfig.symbol = [lit "AISHOP"] := by
  refine ⟨?_, mntBeforeAishop_provAddr, mntBeforeAishop_provOwn, by decide⟩
  intro env hret
  obtain ⟨uopt, text, cache, derv, sk, nat, dec, tok⟩ := env
  rcases uopt with _ | uid
  · simp [checkBalanceFlow] at hret
  rcases hx : extractEthereumWalletAddress text with _ | addr
  · by_cases hw : userHasWallet cache uid
    case neg => simp [checkBalanceFlow, hx, hw] at hret
    rcases hp : initUserWalletProvider cache uid derv with _ | prov
    · simp [checkBalanceFlow, hx, hw, hp] at hret
    rcases nat with e | n
    · simp [checkBalanceFlow, hx, hw, hp] at hret
    rcases dec with e1 | d
    · exact ⟨balanceLinesOwn prov.address (formatEther n) aishopErrMarkText,
        by simp [checkBalanceFlow, hx, hw, hp], mntBeforeAishop_linesOwn _ _ _⟩
    rcases tok with e2 | tb
    · exact ⟨balanceLinesOwn prov.address (formatEther n) aishopErrMarkText,
        by simp [checkBalanceFlow, hx, hw, hp], mntBeforeAishop_linesOwn _ _ _⟩
    · exact ⟨balanceLinesOwn prov.address (formatEther n) (formatUnits tb d),
        by simp [checkBalanceFlow, hx, hw, hp], mntBeforeAishop_linesOwn _ _ _⟩
  · rcases sk with _ | skv
    · simp only [checkBalanceFlow, hx] at hret
      simp at hret
    rcases nat with e | n
    · simp only [checkBalanceFlow, hx] at hret
      simp at hret
    rcases tok with e2 | tb
    · exact ⟨balanceLinesAddr addr (formatEther n) aishopErrMarkText,
        by simp [checkBalanceFlow, hx], mntBeforeAishop_linesAddr _ _ _⟩
    · exact ⟨balanceLinesAddr addr (formatEther n) (formatUnits tb 18),
        by simp [checkBalanceFlow, hx], mntBeforeAishop_linesAddr _ _ _⟩

/-- C7 witness: the flow component applied to a concrete successful
own-wallet balance query. -/
theorem c7_report_order_witness :
    ∃ L,
      (checkBalanceFlow
        ⟨some uid1, lit "ver mi balance", cache1, derive1, none,
         Except.ok 3, Except.ok 18, Except.ok 7⟩).replies = [joinLines L] ∧
      mntBeforeAishop L (lit "MNT: ") (lit "AISHOP: ") :=
  c7_report_order.1 _ (by decide)

end AIShop
